import Mathlib

/-!
Shallow embedding of a small library-catalog web application
(Express routing layer over a single-table Sequelize model, SQLite storage).

Source files embedded here:
- src/db/models/Book.js : the Book model (integer pk, title and author
  required non-null and non-empty, genre and year optional).
- src/unnamed/part_000 : the routes (list, get, create, update, delete,
  search) and the asyncHandler error wrapper.

Modelling conventions:
- A persisted row is a `Book`; the table plus the autoincrement counter is
  a `Store`.
- A submitted form body (req.body) is a `BookForm`; an absent field is
  `none` (undefined in JS), a present field `some v`.
- A thrown JS error is a `JsError`: Sequelize validation failures are
  `JsError.validation`, the TypeError raised by calling a method on `null`
  (findByPk miss) is `JsError.typeErr`.
- A rendered page or redirect is a `Response`.
- The SQLite LIKE operator used by the search route is embedded as
  `likeMatch` (ASCII-case-insensitive, with the characters of the percent
  sign and the underscore as wildcards), applied to the pattern that the
  source builds by string concatenation.
-/

/-- Book model from src/db/models/Book.js: integer primary key, required
title and author strings, optional genre string, optional integer year.
Nullability of title and author is excluded at rest by the type. -/
structure Book where
  id : Nat
  title : String
  author : String
  genre : Option String
  year : Option Int
  deriving Repr, DecidableEq

/-- Persistent table of books together with the autoincrement counter for
the generated primary key. -/
structure Store where
  books : List Book
  nextId : Nat
  deriving Repr, DecidableEq

/-- Submitted form body (req.body): any field may be absent. -/
structure BookForm where
  title : Option String
  author : Option String
  genre : Option String
  year : Option Int
  deriving Repr, DecidableEq

/-- Errors thrown inside a route handler: a Sequelize validation error, or
the TypeError raised by invoking update or destroy on a null lookup result. -/
inductive JsError where
  | validation
  | typeErr
  deriving Repr, DecidableEq

/-- Pages rendered (or redirects issued) by the handlers. -/
inductive Response where
  | redirect (path : String)
  | renderIndex (books : List Book)
  | renderNewBookForm (title author genre : Option String) (year : Option Int) (alert : Bool)
  | renderUpdateBookForm (id : String) (title author genre : Option String) (year : Option Int) (alert : Bool)
  | errorPage
  | notFoundPage
  deriving Repr, DecidableEq

/-- Whitespace character class of the JavaScript regular expression used
by the Sequelize notEmpty validator: the ASCII whitespace characters plus
the Unicode space separators matched by a backslash-s class. -/
def isJsSpace (c : Char) : Bool :=
  c == ' ' || c == '\t' || c == '\n' || c == '\r' ||
  c.toNat == 11 || c.toNat == 12 || c.toNat == 160 || c.toNat == 5760 ||
  (8192 ≤ c.toNat && c.toNat ≤ 8202) || c.toNat == 8232 || c.toNat == 8233 ||
  c.toNat == 8239 || c.toNat == 8287 || c.toNat == 12288 || c.toNat == 65279

/-- Sequelize notEmpty validator on a string value: it rejects any string
whose characters are all whitespace (the empty string included), accepting
only strings holding at least one non-whitespace character. -/
def notEmptyStr (s : String) : Bool :=
  !(s.data.all isJsSpace)

/-- Validators notNull plus notEmpty on a submitted field, as declared on
title and author in Book.init: the field must be present and pass
notEmpty. -/
def validPresence : Option String → Bool
  | none => false
  | some s => notEmptyStr s

/-- Validation of a whole form on create: title and author must both be
present and non-empty. -/
def formValid (f : BookForm) : Bool :=
  validPresence f.title && validPresence f.author

/-- Instance-level validity checked by Sequelize before any write: title
and author of the row pass notEmpty, holding at least one non-whitespace
character (non-null is enforced by the type). -/
def bookValid (b : Book) : Bool :=
  notEmptyStr b.title && notEmptyStr b.author

/-- Invariant of the table: every persisted row is valid. -/
def storeValid (st : Store) : Bool :=
  st.books.all bookValid

/-- Book.create(req.body): validate, then insert a fresh row with the
generated id; on validation failure nothing is written. -/
def createBook (st : Store) (f : BookForm) : Except JsError (Book × Store) :=
  if formValid f then
    let b : Book :=
      ⟨st.nextId, f.title.getD "", f.author.getD "", f.genre, f.year⟩
    Except.ok (b, ⟨st.books ++ [b], st.nextId + 1⟩)
  else Except.error JsError.validation

/-- Book.findByPk on a numeric id: first row whose id matches. -/
def findByPk (st : Store) (id : Nat) : Option Book :=
  st.books.find? (fun b => b.id == id)

/-- Decimal reading of a route parameter, as applied by the SQLite integer
affinity of the id column: only a non-empty all-digit string denotes a
number. -/
def strToNat? (s : String) : Option Nat :=
  if !s.data.isEmpty && s.data.all (fun c => 48 ≤ c.toNat && c.toNat ≤ 57)
  then some (s.data.foldl (fun n c => n * 10 + (c.toNat - 48)) 0)
  else none

/-- Book.findByPk on the raw route parameter string: SQLite integer
affinity matches the row only when the string reads as a number. -/
def findByPkStr (st : Store) (idStr : String) : Option Book :=
  match strToNat? idStr with
  | some n => findByPk st n
  | none => none

/-- Merge of a submitted field over a stored optional field: a present
value overwrites, an absent one leaves the row unchanged. -/
def overrideOpt (new old : Option α) : Option α :=
  match new with
  | some v => some v
  | none => old

/-- Instance update book.update(req.body): present fields overwrite the
row, the id is untouched. -/
def applyForm (b : Book) (f : BookForm) : Book :=
  ⟨b.id, f.title.getD b.title, f.author.getD b.author,
   overrideOpt f.genre b.genre, overrideOpt f.year b.year⟩

/-- ASCII lower-casing as performed by the SQLite LIKE comparison (only
the letters A through Z fold). -/
def lowerC (c : Char) : Char :=
  if c.toNat ≥ 65 && c.toNat ≤ 90 then Char.ofNat (c.toNat + 32) else c

/-- SQLite LIKE matcher on character lists: the percent sign matches any
sequence, the underscore any single character, and ordinary characters
compare ASCII-case-insensitively. -/
def likeMatch : List Char → List Char → Bool
  | [], [] => true
  | [], _ :: _ => false
  | p :: ps, [] => if p = '%' then likeMatch ps [] else false
  | p :: ps, c :: cs =>
    if p = '%' then likeMatch ps (c :: cs) || likeMatch (p :: ps) cs
    else (p = '_' || lowerC p == lowerC c) && likeMatch ps cs
termination_by p s => (s.length, p.length)

/-- Pattern built by the search route: the percent sign, the search term,
the percent sign, concatenated as strings. -/
def sqlPattern (search : String) : String :=
  "%" ++ search ++ "%"

/-- Comparison column LIKE pattern on one column: a NULL column never
matches; an integer column is compared through its decimal string form. -/
def fieldLike (search : String) : Option String → Bool
  | none => false
  | some s => likeMatch (sqlPattern search).toList s.toList

/-- Filter of the search route: Op.or over the four columns title, author,
genre, year, each under Op.like with the concatenated pattern. -/
def bookMatches (search : String) (b : Book) : Bool :=
  fieldLike search (some b.title) || fieldLike search (some b.author) ||
  fieldLike search b.genre || fieldLike search (b.year.map toString)

/-- Book.findAll with the search filter of the POST / route. -/
def searchBooks (search : String) (st : Store) : List Book :=
  st.books.filter (bookMatches search)

/-- JavaScript String.prototype.substring with one argument: the suffix
from the given character index (empty beyond the end). -/
def jsSubstring (s : String) (start : Nat) : String :=
  String.mk (s.data.drop start)

/-- Error wrapper asyncHandler: a successful handler result passes
through; a thrown SequelizeValidationError rerenders the originating form
(new-book when req.url equals the string /books/new, otherwise update-book
with the id cut from the url at character offset 7) with the submitted
body values and the alert flag; any other error yields the 500 error page
with the store untouched. -/
def asyncHandlerWrap (url : String) (body : BookForm)
    (r : Except JsError (Store × Response)) (st : Store) : Store × Response :=
  match r with
  | Except.ok (st', resp) => (st', resp)
  | Except.error e =>
    match e with
    | JsError.validation =>
      if url == "/books/new" then
        (st, Response.renderNewBookForm body.title body.author body.genre body.year true)
      else
        (st, Response.renderUpdateBookForm (jsSubstring url 7)
          body.title body.author body.genre body.year true)
    | JsError.typeErr => (st, Response.errorPage)

/-- GET /books: render the full listing. -/
def getBooks (st : Store) : Store × Response :=
  (st, Response.renderIndex st.books)

/-- POST /: run the search filter and render the listing of matches. -/
def postSearch (st : Store) (search : String) : Store × Response :=
  asyncHandlerWrap "/" ⟨none, none, none, none⟩
    (Except.ok (st, Response.renderIndex (searchBooks search st))) st

/-- POST /books/new: Book.create then redirect to the listing, wrapped by
asyncHandler at the url /books/new. -/
def postBooksNew (st : Store) (body : BookForm) : Store × Response :=
  asyncHandlerWrap "/books/new" body
    (match createBook st body with
     | Except.ok (_, st') => Except.ok (st', Response.redirect "/books")
     | Except.error e => Except.error e) st

/-- Core of the update handler: findByPk then book.update; a missed lookup
throws a TypeError, an invalid merged row throws a validation error, and a
valid one rewrites the row in place and redirects to the root. -/
def updateCore (st : Store) (idStr : String) (f : BookForm) :
    Except JsError (Store × Response) :=
  match findByPkStr st idStr with
  | none => Except.error JsError.typeErr
  | some b =>
    if bookValid (applyForm b f) then
      Except.ok
        (⟨st.books.map (fun c => if c.id == b.id then applyForm b f else c),
          st.nextId⟩,
         Response.redirect "/")
    else Except.error JsError.validation

/-- POST /books/:id: the update core wrapped by asyncHandler at the url
built from the route path. -/
def postBooksId (st : Store) (idStr : String) (body : BookForm) : Store × Response :=
  asyncHandlerWrap ("/books/" ++ idStr) body (updateCore st idStr body) st

/-- POST /books/:id/delete: findByPk then book.destroy then redirect; this
route is not wrapped, so a thrown error escapes with no response. -/
def postBooksIdDelete (st : Store) (idStr : String) :
    Except JsError (Store × Response) :=
  match findByPkStr st idStr with
  | none => Except.error JsError.typeErr
  | some b =>
    Except.ok (⟨st.books.filter (fun c => !(c.id == b.id)), st.nextId⟩,
      Response.redirect "/books")

/-- Store left behind by the delete route: unchanged when the handler
throws before any write. -/
def deleteResultStore (st : Store) (idStr : String) : Store :=
  match postBooksIdDelete st idStr with
  | Except.ok (st', _) => st'
  | Except.error _ => st

/-- States of the record store reachable from the freshly synced empty
table through the operations of the application. -/
inductive Reachable : Store → Prop where
  | init : Reachable ⟨[], 1⟩
  | create (st : Store) (f : BookForm) :
      Reachable st → Reachable (postBooksNew st f).1
  | update (st : Store) (idStr : String) (f : BookForm) :
      Reachable st → Reachable (postBooksId st idStr f).1
  | delete (st : Store) (idStr : String) :
      Reachable st → Reachable (deleteResultStore st idStr)
  | list (st : Store) : Reachable st → Reachable (getBooks st).1
  | search (st : Store) (term : String) :
      Reachable st → Reachable (postSearch st term).1
  | get (st : Store) (id : Nat) : Reachable st → Reachable st

/-- Case-sensitive character-list prefix test (used to state the spec
wording of substring matching and of the claimed path check). -/
def leadsWith : List Char → List Char → Bool
  | [], _ => true
  | _ :: _, [] => false
  | a :: as, b :: bs => a == b && leadsWith as bs

/-- Substring test on character lists: the needle occurs contiguously in
the haystack. -/
def listSubstr (t : List Char) : List Char → Bool
  | [] => leadsWith t []
  | c :: cs => leadsWith t (c :: cs) || listSubstr t cs

/-- String-level substring test, stated from the spec wording: the term
is a substring of the field. -/
def strContainsCS (term s : String) : Bool :=
  listSubstr term.data s.data

/-- Spec wording of the search claim: the term is a substring of the
title, the author, the genre, or the string form of the year. -/
def substrAny (term : String) (b : Book) : Bool :=
  strContainsCS term b.title || strContainsCS term b.author ||
  (match b.genre with | some g => strContainsCS term g | none => false) ||
  (match b.year with | some y => strContainsCS term (toString y) | none => false)

/-- Term free of the two LIKE wildcard characters. -/
def noWildL (t : List Char) : Bool :=
  t.all (fun c => !(c == '%') && !(c == '_'))

/-- String form of the wildcard-free condition. -/
def noWild (term : String) : Bool :=
  noWildL term.data

/-- ASCII-case-insensitive substring test. -/
def ciContains (term s : String) : Bool :=
  listSubstr (term.data.map lowerC) (s.data.map lowerC)

/-- ASCII-case-insensitive substring match against the four columns. -/
def ciSubstrAny (term : String) (b : Book) : Bool :=
  ciContains term b.title || ciContains term b.author ||
  (match b.genre with | some g => ciContains term g | none => false) ||
  (match b.year with | some y => ciContains term (toString y) | none => false)

/-- Claimed path test of the error wrapper: the fixed route string leads
the originating url. -/
def strLeads (p s : String) : Bool :=
  leadsWith p.data s.data

theorem likeMatch_pct (s : List Char) : likeMatch ['%'] s = true := by
  induction s with
  | nil => simp [likeMatch]
  | cons c cs ih => simp [likeMatch, ih]

theorem likeMatch_lead (t : List Char) (h : noWildL t = true) (s : List Char) :
    likeMatch (t ++ ['%']) s = leadsWith (t.map lowerC) (s.map lowerC) := by
  induction t generalizing s with
  | nil => simp [likeMatch_pct, leadsWith]
  | cons a as ih =>
    simp only [noWildL, List.all_cons, Bool.and_eq_true] at h
    obtain ⟨⟨h1, h2⟩, h3⟩ := h
    have h1' : ¬(a = '%') := by simpa using h1
    have h2' : ¬(a = '_') := by simpa using h2
    have h3' : noWildL as = true := h3
    cases s with
    | nil => simp [likeMatch, leadsWith, h1']
    | cons c cs =>
      simp [likeMatch, leadsWith, h1', h2', ih h3' cs]

theorem likeMatch_sub (t : List Char) (h : noWildL t = true) (s : List Char) :
    likeMatch ('%' :: (t ++ ['%'])) s = listSubstr (t.map lowerC) (s.map lowerC) := by
  induction s with
  | nil => simp [likeMatch, listSubstr, likeMatch_lead t h]
  | cons c cs ih => simp [likeMatch, listSubstr, likeMatch_lead t h, ih]

theorem sqlPattern_toList (t : String) :
    (sqlPattern t).toList = '%' :: (t.data ++ ['%']) := by
  simp [sqlPattern, String.toList, String.data_append]

theorem fieldLike_ci (term : String) (h : noWild term = true) (v : Option String) :
    fieldLike term v =
      (match v with | none => false | some s => ciContains term s) := by
  cases v with
  | none => rfl
  | some s =>
    show likeMatch (sqlPattern term).toList s.toList = ciContains term s
    rw [sqlPattern_toList, likeMatch_sub term.data h]
    rfl

theorem bookMatches_ci (term : String) (h : noWild term = true) (b : Book) :
    bookMatches term b = ciSubstrAny term b := by
  simp only [bookMatches, ciSubstrAny, fieldLike_ci term h]
  cases b.genre <;> cases b.year <;> simp [Option.map]

theorem searchBooks_ci (term : String) (h : noWild term = true) (st : Store) :
    searchBooks term st = st.books.filter (fun b => ciSubstrAny term b) := by
  exact List.filter_congr (fun b _ => bookMatches_ci term h b)

theorem listSubstr_nil (l : List Char) : listSubstr [] l = true := by
  cases l <;> simp [listSubstr, leadsWith]

theorem jsSubstring_books (s : String) : jsSubstring ("/books/" ++ s) 7 = s := by
  have h := List.drop_left ("/books/").data s.data
  unfold jsSubstring
  rw [String.data_append]
  have h7 : ("/books/").data.length = 7 := rfl
  rw [← h7, h]

theorem asyncHandlerWrap_error_fst (url : String) (body : BookForm)
    (e : JsError) (st : Store) :
    (asyncHandlerWrap url body (Except.error e) st).1 = st := by
  cases e with
  | validation =>
    by_cases h : url == "/books/new" <;> simp [asyncHandlerWrap, h]
  | typeErr => rfl

theorem validPresence_getD {v : Option String} (h : validPresence v = true) :
    notEmptyStr (v.getD "") = true := by
  cases v with
  | none => simp [validPresence] at h
  | some s => simpa [validPresence] using h

/-- C1: on every reachable state of the record store, every persisted Book
record has a non-empty title and a non-empty author (non-null holds by
typing); creates and updates with violating fields are rejected without
committing, so every operation of the application preserves the invariant. -/
theorem c1_invariant (st : Store) (h : Reachable st) : storeValid st = true := by
  induction h with
  | init => rfl
  | create st f _ ih =>
    by_cases hv : formValid f = true
    · have ht : validPresence f.title = true := by
        have := hv; simp only [formValid, Bool.and_eq_true] at this; exact this.1
      have ha : validPresence f.author = true := by
        have := hv; simp only [formValid, Bool.and_eq_true] at this; exact this.2
      simp only [postBooksNew, createBook, hv, if_true, asyncHandlerWrap]
      simp only [storeValid, List.all_append, List.all_cons, List.all_nil,
        Bool.and_eq_true]
      refine ⟨ih, ?_, trivial⟩
      simp only [bookValid, Bool.and_eq_true]
      exact ⟨validPresence_getD ht, validPresence_getD ha⟩
    · have hv' : formValid f = false := by
        cases hfv : formValid f
        · rfl
        · exact absurd hfv hv
      simp only [postBooksNew, createBook, hv', Bool.false_eq_true, if_false]
      rw [asyncHandlerWrap_error_fst]
      exact ih
  | update st idStr f _ ih =>
    cases hfind : findByPkStr st idStr with
    | none =>
      simp only [postBooksId, updateCore, hfind]
      rw [asyncHandlerWrap_error_fst]
      exact ih
    | some b =>
      by_cases hv : bookValid (applyForm b f) = true
      · simp only [postBooksId, updateCore, hfind, hv, if_true, asyncHandlerWrap]
        rw [storeValid, List.all_eq_true]
        intro x hx
        rw [List.mem_map] at hx
        obtain ⟨c, hc, hgc⟩ := hx
        by_cases hid : (c.id == b.id) = true
        · rw [if_pos hid] at hgc
          rw [← hgc]; exact hv
        · rw [if_neg hid] at hgc
          rw [storeValid, List.all_eq_true] at ih
          rw [← hgc]; exact ih c hc
      · have hv' : bookValid (applyForm b f) = false := by
          cases hb : bookValid (applyForm b f)
          · rfl
          · exact absurd hb hv
        simp only [postBooksId, updateCore, hfind, hv', Bool.false_eq_true, if_false]
        rw [asyncHandlerWrap_error_fst]
        exact ih
  | delete st idStr _ ih =>
    cases hfind : findByPkStr st idStr with
    | none => simpa [deleteResultStore, postBooksIdDelete, hfind] using ih
    | some b =>
      simp only [deleteResultStore, postBooksIdDelete, hfind]
      rw [storeValid, List.all_eq_true]
      rw [storeValid, List.all_eq_true] at ih
      intro x hx
      exact ih x (List.mem_of_mem_filter hx)
  | list st _ ih => exact ih
  | search st term _ ih => exact ih
  | get st id _ ih => exact ih

theorem c1_invariant_witness :
    storeValid ((postBooksNew ⟨[], 1⟩ ⟨some "Emma", some "Austen", none, none⟩).1)
      = true :=
  c1_invariant _ (Reachable.create ⟨[], 1⟩ ⟨some "Emma", some "Austen", none, none⟩
    Reachable.init)

/-- C2: submitting the creation form with an empty title (author, genre,
year arbitrary) persists nothing, leaves the store unchanged, and
rerenders the creation form with the submitted author, genre and year and
the alert flag set. -/
theorem c2_create_empty_title (st : Store) (a g : Option String) (y : Option Int) :
    postBooksNew st ⟨some "", a, g, y⟩ =
      (st, Response.renderNewBookForm (some "") a g y true) := by
  have h0 : validPresence (some "") = false := by decide
  simp [postBooksNew, createBook, formValid, h0, asyncHandlerWrap]

/-- C3 counterexample: the notEmpty validator rejects whitespace-only
strings, not only the empty string, so a submission whose title is a
single space (a non-empty string) is not persisted: the route rerenders
the creation form with an alert, leaves the store unchanged, and does not
redirect to the listing. -/
theorem c3_create_valid_cex :
    (" " : String) ≠ "" ∧ ("Bellow" : String) ≠ "" ∧
    postBooksNew ⟨[], 1⟩ ⟨some " ", some "Bellow", none, none⟩ =
      (⟨[], 1⟩, Response.renderNewBookForm (some " ") (some "Bellow")
        none none true) ∧
    (postBooksNew ⟨[], 1⟩ ⟨some " ", some "Bellow", none, none⟩).2 ≠
      Response.redirect "/books" :=
  ⟨by decide, by decide, by decide, by decide⟩

/-- C3 amended: submitting the creation form with title and author that
pass the notEmpty validator (each holds at least one non-whitespace
character, hence is non-empty) persists a new Book with those values and
the generated id, redirects to the listing, and the new record appears in
a subsequent listing. -/
theorem c3_create_valid (st : Store) (t a : String) (g : Option String)
    (y : Option Int) (ht : notEmptyStr t = true) (ha : notEmptyStr a = true) :
    postBooksNew st ⟨some t, some a, g, y⟩ =
      (⟨st.books ++ [⟨st.nextId, t, a, g, y⟩], st.nextId + 1⟩,
       Response.redirect "/books") ∧
    (⟨st.nextId, t, a, g, y⟩ : Book) ∈ (st.books ++ [⟨st.nextId, t, a, g, y⟩]) ∧
    getBooks ⟨st.books ++ [⟨st.nextId, t, a, g, y⟩], st.nextId + 1⟩ =
      (⟨st.books ++ [⟨st.nextId, t, a, g, y⟩], st.nextId + 1⟩,
       Response.renderIndex (st.books ++ [⟨st.nextId, t, a, g, y⟩])) := by
  refine ⟨?_, ?_, rfl⟩
  · simp [postBooksNew, createBook, formValid, validPresence, ht, ha,
      asyncHandlerWrap]
  · simp

theorem c3_create_valid_witness :
    postBooksNew ⟨[], 1⟩ ⟨some "Herzog", some "Bellow", none, none⟩ =
      (⟨[⟨1, "Herzog", "Bellow", none, none⟩], 2⟩, Response.redirect "/books") ∧
    (⟨1, "Herzog", "Bellow", none, none⟩ : Book) ∈
      [(⟨1, "Herzog", "Bellow", none, none⟩ : Book)] ∧
    getBooks ⟨[⟨1, "Herzog", "Bellow", none, none⟩], 2⟩ =
      (⟨[⟨1, "Herzog", "Bellow", none, none⟩], 2⟩,
       Response.renderIndex [⟨1, "Herzog", "Bellow", none, none⟩]) :=
  c3_create_valid ⟨[], 1⟩ "Herzog" "Bellow" none none (by decide) (by decide)

/-- C4 counterexample: the search route matches through SQL LIKE, which on
SQLite compares ASCII letters case-insensitively, so the term abc returns
the record titled ABC even though abc is a substring of none of its
fields; the claim that search returns exactly the records having the term
as a literal substring of a field is therefore false. -/
theorem c4_search_substring_cex :
    searchBooks "abc" ⟨[⟨1, "ABC", "XYZ", none, none⟩], 2⟩ =
      [⟨1, "ABC", "XYZ", none, none⟩] ∧
    substrAny "abc" ⟨1, "ABC", "XYZ", none, none⟩ = false := by
  constructor
  · rw [searchBooks_ci "abc" (by decide)]
    decide
  · decide

/-- C4 amended: for every store and every wildcard-free search term, the
search route returns exactly the records one of whose present fields
(title, author, genre, or the string form of the year) contains the term
as a substring up to ASCII case: LIKE matching with the pattern built by
the route coincides with case-insensitive substring matching on such
terms. -/
theorem c4_search_like (st : Store) (term : String) (b : Book)
    (h : noWild term = true) :
    b ∈ searchBooks term st ↔ b ∈ st.books ∧ ciSubstrAny term b = true := by
  rw [searchBooks_ci term h st]
  exact List.mem_filter

theorem c4_search_like_witness :
    (⟨1, "The Hobbit", "Tolkien", some "Fantasy", none⟩ : Book) ∈
        searchBooks "fan" ⟨[⟨1, "The Hobbit", "Tolkien", some "Fantasy", none⟩], 2⟩ ↔
      (⟨1, "The Hobbit", "Tolkien", some "Fantasy", none⟩ : Book) ∈
          (⟨[⟨1, "The Hobbit", "Tolkien", some "Fantasy", none⟩], 2⟩ : Store).books ∧
        ciSubstrAny "fan" ⟨1, "The Hobbit", "Tolkien", some "Fantasy", none⟩ = true :=
  c4_search_like ⟨[⟨1, "The Hobbit", "Tolkien", some "Fantasy", none⟩], 2⟩ "fan"
    ⟨1, "The Hobbit", "Tolkien", some "Fantasy", none⟩ (by decide)

/-- C5: on a store satisfying the title and author invariant, searching
with the empty term returns every record (the empty pattern matches every
title), including records with absent genre and year; the search response
then equals the listing response. -/
theorem c5_empty_search_lists_all (st : Store) (h : storeValid st = true) :
    searchBooks "" st = st.books ∧ (postSearch st "").2 = (getBooks st).2 := by
  have hall : ∀ b ∈ st.books, bookMatches "" b = true := by
    intro b _
    rw [bookMatches_ci "" (by decide) b]
    have e : ("" : String).data = [] := rfl
    have h1 : ciContains "" b.title = true := by
      rw [ciContains, e]
      exact listSubstr_nil _
    simp [ciSubstrAny, h1]
  have h1 : searchBooks "" st = st.books := List.filter_eq_self.mpr hall
  refine ⟨h1, ?_⟩
  simp [postSearch, asyncHandlerWrap, getBooks, h1]

theorem c5_empty_search_lists_all_witness :
    searchBooks "" ⟨[⟨1, "Ulysses", "Joyce", none, none⟩], 2⟩ =
      (⟨[⟨1, "Ulysses", "Joyce", none, none⟩], 2⟩ : Store).books ∧
    (postSearch ⟨[⟨1, "Ulysses", "Joyce", none, none⟩], 2⟩ "").2 =
      (getBooks ⟨[⟨1, "Ulysses", "Joyce", none, none⟩], 2⟩).2 :=
  c5_empty_search_lists_all ⟨[⟨1, "Ulysses", "Joyce", none, none⟩], 2⟩ (by decide)

/-- C6 counterexample: the notEmpty validator rejects whitespace-only
strings, so updating an existing record with a single-space title (a
non-empty string) does not commit: the route rerenders the update form
with an alert, leaves the record and the store unchanged, and does not
redirect to the root. -/
theorem c6_update_frame_cex :
    (" " : String) ≠ "" ∧ ("NewA" : String) ≠ "" ∧
    postBooksId ⟨[⟨1, "Old", "OldA", none, none⟩], 2⟩ "1"
        ⟨some " ", some "NewA", none, none⟩ =
      (⟨[⟨1, "Old", "OldA", none, none⟩], 2⟩,
       Response.renderUpdateBookForm "1" (some " ") (some "NewA")
         none none true) ∧
    (postBooksId ⟨[⟨1, "Old", "OldA", none, none⟩], 2⟩ "1"
        ⟨some " ", some "NewA", none, none⟩).2 ≠
      Response.redirect "/" :=
  ⟨by decide, by decide, by decide, by decide⟩

/-- C6 amended: updating an existing record with a submission whose title
and author pass the notEmpty validator (each holds a non-whitespace
character, hence is non-empty) rewrites only the targeted record (title
and author to the submitted values, genre and year overwritten only when
submitted), keeps its id, redirects to the root, and leaves every other
record and the id counter unchanged. -/
theorem c6_update_frame (st : Store) (idStr : String) (f : BookForm) (b : Book)
    (t a : String) (hfind : findByPkStr st idStr = some b)
    (hft : f.title = some t) (ht : notEmptyStr t = true)
    (hfa : f.author = some a) (ha : notEmptyStr a = true) :
    ∃ st', postBooksId st idStr f = (st', Response.redirect "/") ∧
      (applyForm b f).id = b.id ∧ (applyForm b f).title = t ∧
      (applyForm b f).author = a ∧
      (applyForm b f).genre = overrideOpt f.genre b.genre ∧
      (applyForm b f).year = overrideOpt f.year b.year ∧
      applyForm b f ∈ st'.books ∧ st'.nextId = st.nextId ∧
      (∀ c ∈ st.books, c.id ≠ b.id → c ∈ st'.books) ∧
      (∀ c ∈ st'.books, c.id ≠ b.id → c ∈ st.books) := by
  have hv : bookValid (applyForm b f) = true := by
    simp [bookValid, applyForm, hft, hfa, ht, ha]
  have hbmem : b ∈ st.books := by
    unfold findByPkStr at hfind
    cases hn : strToNat? idStr with
    | none => rw [hn] at hfind; exact absurd hfind (by simp)
    | some n =>
      rw [hn] at hfind
      unfold findByPk at hfind
      exact List.mem_of_find?_eq_some hfind
  refine ⟨⟨st.books.map (fun c => if c.id == b.id then applyForm b f else c),
      st.nextId⟩, ?_, rfl, ?_, ?_, rfl, rfl, ?_, rfl, ?_, ?_⟩
  · simp [postBooksId, updateCore, hfind, hv, asyncHandlerWrap]
  · simp [applyForm, hft]
  · simp [applyForm, hfa]
  · exact List.mem_map.mpr ⟨b, hbmem, by simp⟩
  · intro c hc hne
    exact List.mem_map.mpr ⟨c, hc, by simp [hne]⟩
  · intro c hc hne
    rw [List.mem_map] at hc
    obtain ⟨d, hd, hdc⟩ := hc
    by_cases hid : d.id = b.id
    · rw [if_pos (by simp [hid])] at hdc
      exfalso
      apply hne
      rw [← hdc]
      rfl
    · rw [if_neg (by simp [hid])] at hdc
      rw [← hdc]
      exact hd

theorem c6_update_frame_witness :
    ∃ st', postBooksId ⟨[⟨1, "Old", "OldA", some "G", some 1990⟩,
        ⟨2, "Keep", "K", none, none⟩], 3⟩ "1"
        ⟨some "New", some "NewA", none, some 2000⟩ =
      (st', Response.redirect "/") ∧
      (applyForm ⟨1, "Old", "OldA", some "G", some 1990⟩
        ⟨some "New", some "NewA", none, some 2000⟩).id = 1 ∧
      (applyForm ⟨1, "Old", "OldA", some "G", some 1990⟩
        ⟨some "New", some "NewA", none, some 2000⟩).title = "New" ∧
      (applyForm ⟨1, "Old", "OldA", some "G", some 1990⟩
        ⟨some "New", some "NewA", none, some 2000⟩).author = "NewA" ∧
      (applyForm ⟨1, "Old", "OldA", some "G", some 1990⟩
        ⟨some "New", some "NewA", none, some 2000⟩).genre =
        overrideOpt none (some "G") ∧
      (applyForm ⟨1, "Old", "OldA", some "G", some 1990⟩
        ⟨some "New", some "NewA", none, some 2000⟩).year =
        overrideOpt (some 2000) (some 1990) ∧
      applyForm ⟨1, "Old", "OldA", some "G", some 1990⟩
        ⟨some "New", some "NewA", none, some 2000⟩ ∈ st'.books ∧
      st'.nextId = 3 ∧
      (∀ c ∈ (⟨[⟨1, "Old", "OldA", some "G", some 1990⟩,
          ⟨2, "Keep", "K", none, none⟩], 3⟩ : Store).books,
        c.id ≠ 1 → c ∈ st'.books) ∧
      (∀ c ∈ st'.books, c.id ≠ 1 →
        c ∈ (⟨[⟨1, "Old", "OldA", some "G", some 1990⟩,
          ⟨2, "Keep", "K", none, none⟩], 3⟩ : Store).books) :=
  c6_update_frame ⟨[⟨1, "Old", "OldA", some "G", some 1990⟩,
      ⟨2, "Keep", "K", none, none⟩], 3⟩ "1"
    ⟨some "New", some "NewA", none, some 2000⟩
    ⟨1, "Old", "OldA", some "G", some 1990⟩ "New" "NewA"
    (by decide) rfl (by decide) rfl (by decide)

/-- C7: deleting a record found by its id removes exactly that record:
the route redirects to the listing, the record no longer appears, a fetch
by its id reports nothing, and a record survives the deletion exactly when
it was present before and carries a different id. -/
theorem c7_delete_removes (st : Store) (idStr : String) (b : Book)
    (hfind : findByPkStr st idStr = some b) :
    ∃ st', postBooksIdDelete st idStr =
        Except.ok (st', Response.redirect "/books") ∧
      b ∉ st'.books ∧ findByPk st' b.id = none ∧ st'.nextId = st.nextId ∧
      (∀ c, c ∈ st'.books ↔ c ∈ st.books ∧ c.id ≠ b.id) := by
  refine ⟨⟨st.books.filter (fun c => !(c.id == b.id)), st.nextId⟩,
    ?_, ?_, ?_, rfl, ?_⟩
  · simp [postBooksIdDelete, hfind]
  · simp [List.mem_filter]
  · unfold findByPk
    apply List.find?_eq_none.mpr
    intro x hx
    rw [List.mem_filter] at hx
    simpa using hx.2
  · intro c
    simp [List.mem_filter]

theorem c7_delete_removes_witness :
    ∃ st', postBooksIdDelete ⟨[⟨1, "Emma", "Austen", none, none⟩,
        ⟨2, "Keep", "K", none, none⟩], 3⟩ "1" =
        Except.ok (st', Response.redirect "/books") ∧
      (⟨1, "Emma", "Austen", none, none⟩ : Book) ∉ st'.books ∧
      findByPk st' 1 = none ∧ st'.nextId = 3 ∧
      (∀ c, c ∈ st'.books ↔
        c ∈ (⟨[⟨1, "Emma", "Austen", none, none⟩,
          ⟨2, "Keep", "K", none, none⟩], 3⟩ : Store).books ∧ c.id ≠ 1) :=
  c7_delete_removes ⟨[⟨1, "Emma", "Austen", none, none⟩,
      ⟨2, "Keep", "K", none, none⟩], 3⟩ "1"
    ⟨1, "Emma", "Austen", none, none⟩ (by decide)

/-- C8 counterexample: updating a nonexistent id yields the generic 500
error page, which is not the distinct not-found outcome the contract
claims. -/
theorem c8_update_missing_cex :
    postBooksId ⟨[], 1⟩ "1" ⟨some "T", some "A", none, none⟩ =
      (⟨[], 1⟩, Response.errorPage) ∧
    Response.errorPage ≠ Response.notFoundPage :=
  ⟨by decide, by decide⟩

/-- C8 amended: for every id not present in the store, the update route
throws a non-validation TypeError which the wrapper converts into the
generic 500 error page, with the store unchanged; no dedicated not-found
outcome is produced. -/
theorem c8_update_missing (st : Store) (idStr : String) (f : BookForm)
    (h : findByPkStr st idStr = none) :
    postBooksId st idStr f = (st, Response.errorPage) := by
  simp [postBooksId, updateCore, h, asyncHandlerWrap]

theorem c8_update_missing_witness :
    postBooksId ⟨[], 1⟩ "9" ⟨none, none, none, none⟩ =
      (⟨[], 1⟩, Response.errorPage) :=
  c8_update_missing ⟨[], 1⟩ "9" ⟨none, none, none, none⟩ (by decide)

/-- C9 counterexample: the wrapper compares req.url with /books/new by
string equality, not by a leading-string check: at the url /books/newbie
the claimed check matches, yet the wrapper renders the update form, not
the creation form. -/
theorem c9_wrapper_path_cex :
    strLeads "/books/new" "/books/newbie" = true ∧
    (asyncHandlerWrap "/books/newbie" ⟨some "", some "A", none, none⟩
        (Except.error JsError.validation) ⟨[], 1⟩).2 =
      Response.renderUpdateBookForm "newbie" (some "") (some "A") none none true ∧
    (asyncHandlerWrap "/books/newbie" ⟨some "", some "A", none, none⟩
        (Except.error JsError.validation) ⟨[], 1⟩).2 ≠
      Response.renderNewBookForm (some "") (some "A") none none true :=
  ⟨by decide, by decide, by decide⟩

/-- C9 amended: on a thrown validation error the wrapper selects the form
by exact string equality of the originating url with /books/new; at the
url /books/new it rerenders the creation form with the submitted values
and the alert flag, and at any other url of the shape /books/ followed by
an id it rerenders the update form, embedding exactly that id recovered by
the fixed-offset substring at character 7. -/
theorem c9_wrapper_selects_by_equality (body : BookForm) (st : Store)
    (idStr : String) :
    asyncHandlerWrap "/books/new" body (Except.error JsError.validation) st =
      (st, Response.renderNewBookForm body.title body.author body.genre
        body.year true) ∧
    ("/books/" ++ idStr ≠ "/books/new" →
      asyncHandlerWrap ("/books/" ++ idStr) body
          (Except.error JsError.validation) st =
        (st, Response.renderUpdateBookForm idStr body.title body.author
          body.genre body.year true)) := by
  constructor
  · simp [asyncHandlerWrap]
  · intro h
    simp [asyncHandlerWrap, h, jsSubstring_books]

theorem c9_wrapper_selects_by_equality_witness :
    asyncHandlerWrap "/books/new" ⟨some "", some "B", none, none⟩
        (Except.error JsError.validation) ⟨[], 1⟩ =
      (⟨[], 1⟩, Response.renderNewBookForm (some "") (some "B") none none true) ∧
    asyncHandlerWrap ("/books/" ++ "5") ⟨some "", some "B", none, none⟩
        (Except.error JsError.validation) ⟨[], 1⟩ =
      (⟨[], 1⟩,
       Response.renderUpdateBookForm "5" (some "") (some "B") none none true) := by
  have h := c9_wrapper_selects_by_equality ⟨some "", some "B", none, none⟩
    ⟨[], 1⟩ "5"
  exact ⟨h.1, h.2 (by decide)⟩

/-- C10: a delete request for an id with no record finds nothing, the
destroy call throws a TypeError, and since this route is not wrapped the
handler code produces no response of any kind and the store is unchanged. -/
theorem c10_delete_missing_unhandled (st : Store) (idStr : String)
    (h : findByPkStr st idStr = none) :
    postBooksIdDelete st idStr = Except.error JsError.typeErr ∧
    deleteResultStore st idStr = st := by
  constructor
  · simp [postBooksIdDelete, h]
  · simp [deleteResultStore, postBooksIdDelete, h]

theorem c10_delete_missing_unhandled_witness :
    postBooksIdDelete ⟨[], 1⟩ "7" = Except.error JsError.typeErr ∧
    deleteResultStore ⟨[], 1⟩ "7" = ⟨[], 1⟩ :=
  c10_delete_missing_unhandled ⟨[], 1⟩ "7" (by decide)
